import Mathlib

/-!
Shallow embedding of `tools.py` (repository `dora`): the dynamic tool
registrar `create_tool`, the collaborator tools `get_weather`, `search_web`,
`send_email`, and the two list managers `manage_notes` / `manage_todo`.

Python strings are modelled as Lean `String`; the textual operations the
source uses (`in` substring tests, `str.replace`, `str.split`) are embedded
as executable functions below.  Python exceptions that the source can raise
and catch are modelled by the `PyExn` type together with `Except`; each
`try/except` wrapper in the source becomes a total Lean function dispatching
on the `Except` value of its body.  External effects (HTTP responses, the
SMTP session, environment variables) are passed in as explicit oracle
arguments.
-/

namespace Dora

/-- Python truthiness of an optional string: `None` and `""` are falsy
(the source guards `if not x:` on such values). -/
def pyFalsy : Option String → Bool
  | none => true
  | some s => s.isEmpty

/-- Python `x or d` for an optional string `x` and string default `d`. -/
def pyOrStr (x : Option String) (d : String) : String :=
  match x with
  | none => d
  | some s => if s.isEmpty then d else s

/-- Whether `p` is a prefix of `t` (character lists). -/
def listIsPref : List Char → List Char → Bool
  | [], _ => true
  | _ :: _, [] => false
  | p :: ps, c :: cs => p = c && listIsPref ps cs

/-- Whether the pattern occurs as a contiguous substring of the text
(character lists); embeds Python's `pat in text`. -/
def listHasSub (pat : List Char) : List Char → Bool
  | [] => listIsPref pat []
  | c :: cs => listIsPref pat (c :: cs) || listHasSub pat cs

/-- Python `pat in hay` on strings. -/
def strContains (hay pat : String) : Bool :=
  listHasSub pat.data hay.data

/-- Number of (left-to-right, possibly overlapping) occurrences of the
pattern in the text; used to state "appears exactly once" properties. -/
def listCountSub (pat : List Char) : List Char → Nat
  | [] => 0
  | c :: cs => (if listIsPref pat (c :: cs) then 1 else 0) + listCountSub pat cs

/-- Occurrence count of `pat` inside `hay`. -/
def strCount (hay pat : String) : Nat :=
  listCountSub pat.data hay.data

/-- Fuel-indexed worker for replace-all: replaces each left-to-right,
non-overlapping occurrence of `pat` by `repl`, consuming at least one
character of text per fuel step.  With fuel `t.length` this is Python's
`str.replace` for a non-empty pattern (the source only replaces non-empty
literal anchors). -/
def listReplAll (pat repl : List Char) : Nat → List Char → List Char
  | 0, t => t
  | _ + 1, [] => []
  | fuel + 1, c :: cs =>
    if listIsPref pat (c :: cs) && !pat.isEmpty then
      repl ++ listReplAll pat repl fuel (List.drop (pat.length - 1) cs)
    else
      c :: listReplAll pat repl fuel cs

/-- Python `hay.replace(pat, repl)` for a non-empty `pat`. -/
def strReplace (hay pat repl : String) : String :=
  String.mk (listReplAll pat.data repl.data hay.data.length hay.data)

/-- Worker for Python `str.split(sep)`: splits at every separator and keeps
empty segments, so the result is always non-empty. -/
def splitCharsAux (sep : Char) : List Char → List (List Char)
  | [] => [[]]
  | c :: cs =>
    match splitCharsAux sep cs with
    | [] => [[c]]
    | g :: gs => if c = sep then [] :: g :: gs else (c :: g) :: gs

/-- Python `s.split(sep)` (single-character separator, empties kept). -/
def pySplit (s : String) (sep : Char) : List String :=
  (splitCharsAux sep s.data).map String.mk

/-- The Python exceptions the embedded code can raise. -/
inductive PyExn where
  /-- `IndexError`, raised by `api_url.split('/')[2]` on a short list. -/
  | indexError : PyExn
  /-- `AttributeError`, raised by `None.split` when `api_url` is `None`. -/
  | attributeError (msg : String) : PyExn
  /-- `NameError`, raised on access to an unbound global name. -/
  | nameError (varName : String) : PyExn
  deriving DecidableEq

/-- Python `str(e)` for the modelled exceptions. -/
def PyExn.toMessage : PyExn → String
  | .indexError => "list index out of range"
  | .attributeError m => m
  | .nameError v => "name \x27" ++ v ++ "\x27 is not defined"

/-- The two persisted artifacts the registrar mutates: the tool store
(`tools.py`) and the roster (`agent.py`), both plain text. -/
structure FileState where
  tools : String
  agent : String
  deriving DecidableEq

/-- Arguments of `create_tool` (the `context` parameter carries no data and
is omitted); `api_key_env` defaults to `"RAPIDAPI_KEY"` as in the source. -/
structure CreateArgs where
  function_name : String
  purpose : String
  api_url : Option String := none
  api_host : Option String := none
  api_key_env : String := "RAPIDAPI_KEY"

/-- `str(AttributeError)` for `None.split('/')`. -/
def noneSplitMsg : String :=
  "\x27NoneType\x27 object has no attribute \x27split\x27"

/-- Host derivation `api_url.split('/')[2]`: raises `AttributeError` when
`api_url` is `None`, `IndexError` when the split has at most two segments. -/
def deriveHost : Option String → Except PyExn String
  | none => .error (.attributeError noneSplitMsg)
  | some u =>
    match (pySplit u '/')[2]? with
    | none => .error .indexError
    | some h => .ok h

/-- The template's host field `api_host or api_url.split('/')[2]`:
a truthy `api_host` short-circuits, otherwise the host is derived. -/
def hostResolve (api_host api_url : Option String) : Except PyExn String :=
  match api_host with
  | some h => if h.isEmpty then deriveHost api_url else .ok h
  | none => deriveHost api_url

/-- The f-string template of `create_tool`, rendered with the resolved URL
and host values (braces that are literal text of the generated Python are
written with hex escapes). -/
def functionCode (name purpose url host keyEnv : String) : String :=
  "\n@function_tool()\nasync def " ++ name ++
  "(context: RunContext, query: str) -> str:\n    \"\"\"\n    " ++ purpose ++
  "\n    \"\"\"\n    import requests\n    url = \"" ++ url ++
  "\"\n    headers = \x7b\n        \"X-RapidAPI-Key\": os.getenv(\"" ++ keyEnv ++
  "\"),\n        \"X-RapidAPI-Host\": \"" ++ host ++
  "\"\n    \x7d\n    try:\n        response = requests.get(url, headers=headers)\n        data = response.json()\n        return str(data)\n    except Exception as e:\n        return f\"❌ Error fetching data: \x7be\x7d\"\n"

/-- Step 1 of `create_tool`: render the template (which may raise during
host resolution, before any write) and append it plus a newline to the tool
store.  The roster is untouched by this step. -/
def storeAppend (a : CreateArgs) (st : FileState) : Except PyExn FileState :=
  match hostResolve a.api_host a.api_url with
  | .error e => .error e
  | .ok host =>
    let code := functionCode a.function_name a.purpose
      (pyOrStr a.api_url "https://example.com/api") host a.api_key_env
    .ok { st with tools := st.tools ++ code ++ "\n" }

/-- Step 2 of `create_tool`: patch the roster text.  The import anchor is
replaced only when `"from tools import NAME"` is absent; the tools-list
anchor is replaced only when `NAME` is absent from the (already patched)
text — exactly the source's two guarded `str.replace` calls. -/
def rosterPatch (name : String) (st : FileState) : FileState :=
  let a0 := st.agent
  let a1 :=
    if strContains a0 ("from tools import " ++ name) then a0
    else strReplace a0 "from tools import" ("from tools import " ++ name ++ ",")
  let a2 :=
    if strContains a1 name then a1
    else strReplace a1 "tools=[" ("tools=[\n                " ++ name ++ ",")
  { st with agent := a2 }

/-- `create_tool`: append to the store, then patch the roster; any raised
exception is caught by the outer `except` and turned into the failure
string, leaving both artifacts as they were. -/
def create_tool (a : CreateArgs) (st : FileState) : String × FileState :=
  match storeAppend a st with
  | .error e => ("❌ Failed to create function: " ++ e.toMessage, st)
  | .ok st1 =>
    ("✅ Function `" ++ a.function_name ++ "` created and registered successfully.",
      rosterPatch a.function_name st1)

/-- An HTTP response as seen by `get_weather` (status code and body text). -/
structure HttpResponse where
  status_code : Nat
  text : String

/-- Body of `get_weather` (inside the `try`): the oracle `resp` is the
outcome of `requests.get` — either a response or a raised exception. -/
def get_weather_run (city : String) (resp : Except PyExn HttpResponse) :
    Except PyExn String :=
  match resp with
  | .error e => .error e
  | .ok r =>
    if r.status_code = 200 then .ok r.text.trim
    else .ok ("Could not retrieve weather for " ++ city ++ ".")

/-- `get_weather`: the body with its `except Exception` handler. -/
def get_weather (city : String) (resp : Except PyExn HttpResponse) : String :=
  match get_weather_run city resp with
  | .ok s => s
  | .error _ => "An error occurred while retrieving weather for " ++ city ++ "."

/-- Body of `search_web`: the oracle is the outcome of the DuckDuckGo run. -/
def search_web_run (_query : String) (res : Except PyExn String) :
    Except PyExn String :=
  res

/-- `search_web`: the body with its `except Exception` handler. -/
def search_web (query : String) (res : Except PyExn String) : String :=
  match search_web_run query res with
  | .ok s => s
  | .error _ =>
    "An error occurred while searching the web for \x27" ++ query ++ "\x27."

/-- Outcome of the SMTP session in `send_email` once credentials are
present: success, or one of the exceptions the source distinguishes. -/
inductive SmtpOutcome where
  /-- The connect/starttls/login/sendmail/quit sequence succeeded. -/
  | success : SmtpOutcome
  /-- `smtplib.SMTPAuthenticationError` was raised. -/
  | authError : SmtpOutcome
  /-- Another `smtplib.SMTPException` was raised, with `str(e)`. -/
  | smtpError (msg : String) : SmtpOutcome
  /-- Any other exception was raised, with `str(e)`. -/
  | otherError (msg : String) : SmtpOutcome

/-- `send_email`: `gmail_user` / `gmail_password` are the values of the two
environment variables (`None` when unset); a falsy value returns the
credentials message before the SMTP oracle is consulted.  The three
`except` clauses map each SMTP outcome to its distinct message. -/
def send_email (gmail_user gmail_password : Option String)
    (to_email _subject _message : String) (_cc_email : Option String)
    (smtp : SmtpOutcome) : String :=
  if pyFalsy gmail_user || pyFalsy gmail_password then
    "Email sending failed: Gmail credentials not configured."
  else
    match smtp with
    | .success => "Email sent successfully to " ++ to_email
    | .authError =>
      "Email sending failed: Authentication error. Please check your Gmail credentials."
    | .smtpError e => "Email sending failed: SMTP error - " ++ e
    | .otherError e => "An error occurred while sending email: " ++ e

/-- Python `"\n".join`-style concatenation with separator. -/
def joinSep (sep : String) : List String → String
  | [] => ""
  | [x] => x
  | x :: y :: xs => x ++ sep ++ joinSep sep (y :: xs)

/-- Numbered note lines `f"{i+1}. {n}"`, starting at index `i`. -/
def formatNoteLines (i : Nat) : List String → List String
  | [] => []
  | n :: ns => (toString (i + 1) ++ ". " ++ n) :: formatNoteLines (i + 1) ns

/-- The module-level binding `notes_memory` of `tools.py`: the module never
defines it (`todo_list` is the only global list it defines), so the binding
is absent, modelled as `none`; any access raises `NameError`. -/
def notes_memory : Option (List String) := none

/-- Body of `manage_notes` (inside the `try`); `mem` is the state of the
global `notes_memory` binding (`none` = unbound, which raises `NameError`
at first access, exactly where the source reads or mutates the list). -/
def manage_notes_run (action : String) (note : Option String)
    (mem : Option (List String)) : Except PyExn (String × Option (List String)) :=
  if action = "add" then
    if pyFalsy note then .ok ("Please specify a note to add.", mem)
    else
      match mem with
      | none => .error (.nameError "notes_memory")
      | some ns =>
        let n := note.getD ""
        .ok ("✅ Note added: \x27" ++ n ++ "\x27", some (ns ++ [n]))
  else if action = "remove" then
    if pyFalsy note then .ok ("Please specify a note to remove.", mem)
    else
      match mem with
      | none => .error (.nameError "notes_memory")
      | some ns =>
        let n := note.getD ""
        if n ∈ ns then .ok ("🗑️ Note removed: \x27" ++ n ++ "\x27", some (ns.erase n))
        else .ok ("⚠️ Note not found: \x27" ++ n ++ "\x27", some ns)
  else if action = "list" then
    match mem with
    | none => .error (.nameError "notes_memory")
    | some ns =>
      if ns.isEmpty then .ok ("📝 Your to-do list is empty.", some ns)
      else .ok ("📋 Your notes:\n" ++ joinSep "\n" (formatNoteLines 0 ns), some ns)
  else if action = "clear" then
    match mem with
    | none => .error (.nameError "notes_memory")
    | some _ => .ok ("🧹 All notes cleared.", some [])
  else
    .ok ("⚠️ Invalid action. Use \x27add\x27, \x27remove\x27, \x27list\x27, or \x27clear\x27.", mem)

/-- `manage_notes`: the body with its `except Exception` handler, which
formats the exception into the error message and leaves the binding as it
was. -/
def manage_notes (action : String) (note : Option String)
    (mem : Option (List String)) : String × Option (List String) :=
  match manage_notes_run action note mem with
  | .ok r => r
  | .error e => ("❌ Error managing notes: " ++ e.toMessage, mem)

/-- A to-do entry `{"task": ..., "done": ...}`. -/
structure TodoItem where
  task : String
  done : Bool
  deriving DecidableEq

/-- The source's `remove` loop: find the first entry whose task matches and
remove it (`todo_list.remove(t)` removes the first element equal to `t`,
which is that entry); `none` when no entry matches. -/
def removeTask (tk : String) : List TodoItem → Option (List TodoItem)
  | [] => none
  | t :: ts =>
    if t.task = tk then some ts
    else
      match removeTask tk ts with
      | none => none
      | some ts2 => some (t :: ts2)

/-- The source's `complete` loop: mark the first entry whose task matches
as done; `none` when no entry matches. -/
def completeTask (tk : String) : List TodoItem → Option (List TodoItem)
  | [] => none
  | t :: ts =>
    if t.task = tk then some ({ t with done := true } :: ts)
    else
      match completeTask tk ts with
      | none => none
      | some ts2 => some (t :: ts2)

/-- Numbered to-do lines `f"{i + 1}. [{done-mark}] {task}"`. -/
def formatTodoLines (i : Nat) : List TodoItem → List String
  | [] => []
  | t :: ts =>
    (toString (i + 1) ++ ". [" ++ (if t.done then "✔️" else "❌") ++ "] " ++ t.task)
      :: formatTodoLines (i + 1) ts

/-- `manage_todo`: the global `todo_list` is passed and returned explicitly.
The body cannot raise (its only state is the defined global `todo_list`),
so the source's `except Exception` handler is unreachable and the function
is total as written. -/
def manage_todo (action : String) (task : Option String)
    (todo_list : List TodoItem) : String × List TodoItem :=
  if action = "add" then
    if pyFalsy task then ("Please specify a task to add.", todo_list)
    else
      let tk := task.getD ""
      ("✅ Task added: \x27" ++ tk ++ "\x27", todo_list ++ [⟨tk, false⟩])
  else if action = "remove" then
    if pyFalsy task then ("Please specify a task to remove.", todo_list)
    else
      let tk := task.getD ""
      match removeTask tk todo_list with
      | some l2 => ("🗑️ Task removed: \x27" ++ tk ++ "\x27", l2)
      | none => ("⚠️ Task not found: \x27" ++ tk ++ "\x27", todo_list)
  else if action = "complete" then
    if pyFalsy task then ("Please specify a task to mark as completed.", todo_list)
    else
      let tk := task.getD ""
      match completeTask tk todo_list with
      | some l2 => ("✅ Task completed: \x27" ++ tk ++ "\x27", l2)
      | none => ("⚠️ Task not found: \x27" ++ tk ++ "\x27", todo_list)
  else if action = "list" then
    if todo_list.isEmpty then ("📝 Your to-do list is empty.", todo_list)
    else
      ("📋 Your To-Do List:\n" ++ joinSep "\n" (formatTodoLines 0 todo_list),
        todo_list)
  else if action = "clear" then ("🧹 All tasks cleared.", [])
  else
    ("⚠️ Invalid action. Use \x27add\x27, \x27remove\x27, \x27list\x27, \x27complete\x27, or \x27clear\x27.",
      todo_list)

/-- Specification-side helper (from the spec's words "first match only"):
index of the first list entry satisfying `p`. -/
def firstMatchIdx {α : Type} (p : α → Bool) : List α → Option Nat
  | [] => none
  | a :: l => if p a then some 0 else (firstMatchIdx p l).map (· + 1)

/-- A representative roster (`agent.py`) text: one import line and one
`tools=[` list literal, as the source's anchors expect. -/
def agent0 : String :=
  "from tools import get_weather\n\nagent = Agent(\n    tools=[\n        get_weather,\n    ],\n)\n"

/-- Initial artifact state for the concrete registration scenarios. -/
def st0 : FileState := { tools := "", agent := agent0 }

/-- A fresh registration: the name `get_crypto` occurs nowhere in `st0`. -/
def c1Args : CreateArgs :=
  { function_name := "get_crypto", purpose := "Fetch crypto prices",
    api_url := some "https://api.coincap.io/v2/assets",
    api_host := some "api.coincap.io" }

/-- A registration whose host is derived from the URL. -/
def c2Args : CreateArgs :=
  { function_name := "fetch_quotes", purpose := "Fetch stock quotes",
    api_url := some "https://api.stocks.example/v1/quotes" }

/-- The spec's host-derivation example. -/
def c4Args : CreateArgs :=
  { function_name := "get_data", purpose := "Get data",
    api_url := some "https://api.example.com/v1/data" }

/-- A registration with an explicit host and no URL. -/
def c6Args : CreateArgs :=
  { function_name := "get_news", purpose := "Get news",
    api_host := some "news.example.com" }

/-- The intermediate artifact state after step 1 of `create_tool c6Args`
(store written, roster untouched). -/
def c6Mid : FileState :=
  { tools := "" ++ functionCode "get_news" "Get news" "https://example.com/api"
      "news.example.com" "RAPIDAPI_KEY" ++ "\n",
    agent := agent0 }

end Dora

namespace Dora

set_option maxRecDepth 40000

theorem rosterPatch_tools (n : String) (st : FileState) :
    (rosterPatch n st).tools = st.tools := rfl

theorem isEmpty_false_of_ne (s : String) (h : s ≠ "") : s.isEmpty = false := by
  cases h2 : s.isEmpty with
  | true => exact absurd ((String.isEmpty_iff s).mp h2) h
  | false => rfl

theorem ne_of_take_data_ne (s t : String) (n : Nat)
    (h : s.data.take n ≠ t.data.take n) : s ≠ t := by
  intro he
  exact h (by rw [he])

theorem append_take_left (a b : String) (n : Nat) (hn : n ≤ a.data.length) :
    (a ++ b).data.take n = a.data.take n := by
  rw [String.data_append]
  exact List.take_append_of_le_length hn

/-- C1: the registrar is expected to give a fresh name one store definition,
one roster import and one roster list entry; evaluating the code on a fresh
name shows the success message, one store definition and one import, but an
unchanged `tools=[` list: the membership guard runs after the import was
inserted, so the exposed-tools entry is never added. -/
theorem c1_fresh_name_registration :
    (create_tool c1Args st0).1 =
      "✅ Function `get_crypto` created and registered successfully." ∧
    strCount (create_tool c1Args st0).2.tools "async def get_crypto" = 1 ∧
    strContains (create_tool c1Args st0).2.agent "from tools import get_crypto," = true ∧
    (create_tool c1Args st0).2.agent =
      "from tools import get_crypto, get_weather\n\nagent = Agent(\n    tools=[\n        get_weather,\n    ],\n)\n" ∧
    strCount (create_tool c1Args st0).2.agent "get_crypto" = 1 := by
  refine ⟨by decide, by decide, by decide, by decide, by decide⟩

/-- C2 counterexample: a second registration of `fetch_quotes` is not
rejected — it reports success, changes the store, and leaves it holding two
function bodies with the same name. -/
theorem c2_second_call_not_rejected :
    (create_tool c2Args (create_tool c2Args st0).2).1 =
      "✅ Function `fetch_quotes` created and registered successfully." ∧
    strCount (create_tool c2Args (create_tool c2Args st0).2).2.tools
      "async def fetch_quotes" = 2 ∧
    (create_tool c2Args (create_tool c2Args st0).2).2.tools ≠
      (create_tool c2Args st0).2.tools := by
  refine ⟨by decide, by decide, by decide⟩

/-- C2 amended: a repeated registration is not rejected; whenever the roster
already contains the import of the name (and hence the name itself), the
call reports success, appends the rendered definition to the store again,
and leaves the roster text unchanged. -/
theorem c2_repeat_appends_store_only (a : CreateArgs) (st : FileState)
    (host : String) (hres : hostResolve a.api_host a.api_url = .ok host)
    (h1 : strContains st.agent ("from tools import " ++ a.function_name) = true)
    (h2 : strContains st.agent a.function_name = true) :
    create_tool a st =
      ("✅ Function `" ++ a.function_name ++ "` created and registered successfully.",
        { tools := st.tools ++ functionCode a.function_name a.purpose
            (pyOrStr a.api_url "https://example.com/api") host a.api_key_env ++ "\n",
          agent := st.agent }) := by
  unfold create_tool storeAppend rosterPatch
  rw [hres]
  simp [h1, h2]

/-- C2 amended, witnessed at a concrete repeated registration. -/
theorem c2_repeat_witness :
    create_tool c2Args
      { tools := "tools", agent := "from tools import fetch_quotes, get_weather\n" } =
      ("✅ Function `fetch_quotes` created and registered successfully.",
        { tools := "tools" ++ functionCode "fetch_quotes" "Fetch stock quotes"
            "https://api.stocks.example/v1/quotes" "api.stocks.example" "RAPIDAPI_KEY" ++ "\n",
          agent := "from tools import fetch_quotes, get_weather\n" }) :=
  c2_repeat_appends_store_only c2Args
    { tools := "tools", agent := "from tools import fetch_quotes, get_weather\n" }
    "api.stocks.example" (by rfl) (by decide) (by decide)

end Dora

namespace Dora

set_option maxRecDepth 40000

/-- C3: with `api_host` absent and an `api_url` splitting into fewer than
three '/'-delimited segments, registration fails (the template's index of
position 2 raises, caught as the failure message) and neither artifact is
modified. -/
theorem c3_malformed_url_rejected (a : CreateArgs) (st : FileState) (u : String)
    (hh : a.api_host = none) (hu : a.api_url = some u)
    (hlen : (pySplit u '/').length < 3) :
    create_tool a st =
      ("❌ Failed to create function: list index out of range", st) := by
  have hidx : (pySplit u '/')[2]? = none := List.getElem?_eq_none (by omega)
  have h1 : deriveHost (some u) = Except.error PyExn.indexError := by
    simp [deriveHost, hidx]
  have h2 : hostResolve a.api_host a.api_url = Except.error PyExn.indexError := by
    unfold hostResolve
    rw [hh, hu]
    exact h1
  have h3 : storeAppend a st = Except.error PyExn.indexError := by
    unfold storeAppend
    rw [h2]
  unfold create_tool
  rw [h3]
  simp [PyExn.toMessage]

/-- C3 witnessed at the spec's example input `"notaurl"`. -/
theorem c3_malformed_url_witness :
    create_tool { function_name := "t", purpose := "p", api_url := some "notaurl" } st0 =
      ("❌ Failed to create function: list index out of range", st0) :=
  c3_malformed_url_rejected
    { function_name := "t", purpose := "p", api_url := some "notaurl" } st0
    "notaurl" rfl rfl (by decide)

/-- C4: for `api_url = "https://api.example.com/v1/data"` with no explicit
host the derived host is the network-location segment `"api.example.com"`,
and that value lands in the generated definition's host header. -/
theorem c4_host_derivation :
    hostResolve c4Args.api_host c4Args.api_url = Except.ok "api.example.com" ∧
    strContains (create_tool c4Args st0).2.tools
      "\"X-RapidAPI-Host\": \"api.example.com\"" = true := by
  exact ⟨by rfl, by decide⟩

/-- C5 counterexample: with both `api_url` and `api_host` absent the call
does not succeed — the template's host field evaluates `None.split`, and the
caught exception becomes the failure message with both artifacts unchanged. -/
theorem c5_no_url_no_host_fails :
    create_tool { function_name := "mytool", purpose := "does things" } st0 =
      ("❌ Failed to create function: \x27NoneType\x27 object has no attribute \x27split\x27",
        st0) := by
  decide

/-- C5 amended: when `api_host` is supplied (non-empty) it is used verbatim,
overriding any derivation from `api_url`; the call succeeds, and with
`api_url` absent the generated definition uses the placeholder endpoint. -/
theorem c5_host_override_and_placeholder (a : CreateArgs) (st : FileState)
    (h : String) (hh : a.api_host = some h) (hne : h ≠ "") :
    hostResolve a.api_host a.api_url = Except.ok h ∧
    ∃ st2,
      create_tool a st =
        ("✅ Function `" ++ a.function_name ++ "` created and registered successfully.",
          st2) ∧
      st2.tools = st.tools ++ functionCode a.function_name a.purpose
        (pyOrStr a.api_url "https://example.com/api") h a.api_key_env ++ "\n" ∧
      (a.api_url = none →
        st2.tools = st.tools ++ functionCode a.function_name a.purpose
          "https://example.com/api" h a.api_key_env ++ "\n") := by
  have hres : hostResolve a.api_host a.api_url = Except.ok h := by
    unfold hostResolve
    rw [hh]
    simp [isEmpty_false_of_ne h hne]
  have hsa : storeAppend a st = Except.ok
      (⟨st.tools ++ functionCode a.function_name a.purpose
        (pyOrStr a.api_url "https://example.com/api") h a.api_key_env ++ "\n",
        st.agent⟩ : FileState) := by
    unfold storeAppend
    rw [hres]
  refine ⟨hres, rosterPatch a.function_name
    ⟨st.tools ++ functionCode a.function_name a.purpose
      (pyOrStr a.api_url "https://example.com/api") h a.api_key_env ++ "\n",
      st.agent⟩, ?_, ?_, ?_⟩
  · unfold create_tool
    rw [hsa]
  · exact rosterPatch_tools _ _
  · intro hurl
    rw [rosterPatch_tools, hurl]
    rfl

/-- C5 amended, witnessed at a concrete call with no URL and an explicit
host. -/
theorem c5_host_override_witness :
    hostResolve c6Args.api_host c6Args.api_url = Except.ok "news.example.com" ∧
    ∃ st2,
      create_tool c6Args st0 =
        ("✅ Function `" ++ c6Args.function_name ++ "` created and registered successfully.",
          st2) ∧
      st2.tools = st0.tools ++ functionCode c6Args.function_name c6Args.purpose
        (pyOrStr c6Args.api_url "https://example.com/api") "news.example.com"
        c6Args.api_key_env ++ "\n" ∧
      (c6Args.api_url = none →
        st2.tools = st0.tools ++ functionCode c6Args.function_name c6Args.purpose
          "https://example.com/api" "news.example.com" c6Args.api_key_env ++ "\n") :=
  c5_host_override_and_placeholder c6Args st0 "news.example.com" rfl (by decide)

/-- C6: the store is written before the roster.  Whatever state step 1
produces has the new definition appended to the store and the roster exactly
as before — the state an interruption between the two writes would leave —
and the full run is step 2 applied after step 1, with step 2 never touching
the store. -/
theorem c6_store_written_before_roster (a : CreateArgs) (st st1 : FileState)
    (hok : storeAppend a st = .ok st1) :
    st1.agent = st.agent ∧
    (∃ host, hostResolve a.api_host a.api_url = Except.ok host ∧
      st1.tools = st.tools ++ functionCode a.function_name a.purpose
        (pyOrStr a.api_url "https://example.com/api") host a.api_key_env ++ "\n") ∧
    create_tool a st =
      ("✅ Function `" ++ a.function_name ++ "` created and registered successfully.",
        rosterPatch a.function_name st1) ∧
    (rosterPatch a.function_name st1).tools = st1.tools := by
  have hok2 := hok
  unfold storeAppend at hok2
  cases hres : hostResolve a.api_host a.api_url with
  | error e => rw [hres] at hok2; cases hok2
  | ok host =>
    rw [hres] at hok2
    cases hok2
    refine ⟨rfl, ⟨host, rfl, rfl⟩, ?_, rosterPatch_tools _ _⟩
    unfold create_tool
    rw [hok]

/-- C6 witnessed at a concrete registration: the post-step-1 state `c6Mid`
keeps the roster of `st0` and already holds the new definition. -/
theorem c6_store_before_roster_witness :
    c6Mid.agent = st0.agent ∧
    (∃ host, hostResolve c6Args.api_host c6Args.api_url = Except.ok host ∧
      c6Mid.tools = st0.tools ++ functionCode c6Args.function_name c6Args.purpose
        (pyOrStr c6Args.api_url "https://example.com/api") host c6Args.api_key_env ++ "\n") ∧
    create_tool c6Args st0 =
      ("✅ Function `" ++ c6Args.function_name ++ "` created and registered successfully.",
        rosterPatch c6Args.function_name c6Mid) ∧
    (rosterPatch c6Args.function_name c6Mid).tools = c6Mid.tools :=
  c6_store_written_before_roster c6Args st0 c6Mid (by rfl)

end Dora


namespace Dora

set_option maxRecDepth 40000

theorem get_weather_cases (city : String) (resp : Except PyExn HttpResponse) :
    (∃ r, resp = Except.ok r ∧ r.status_code = 200 ∧
      get_weather city resp = r.text.trim) ∨
    get_weather city resp = "Could not retrieve weather for " ++ city ++ "." ∨
    get_weather city resp =
      "An error occurred while retrieving weather for " ++ city ++ "." := by
  cases resp with
  | error e => right; right; rfl
  | ok r =>
    by_cases h : r.status_code = 200
    · exact Or.inl ⟨r, rfl, h, by simp [get_weather, get_weather_run, h]⟩
    · exact Or.inr (Or.inl (by simp [get_weather, get_weather_run, h]))

theorem search_web_cases (q : String) (res : Except PyExn String) :
    (∃ s, res = Except.ok s ∧ search_web q res = s) ∨
    search_web q res =
      "An error occurred while searching the web for \x27" ++ q ++ "\x27." := by
  cases res with
  | error e => right; rfl
  | ok s => exact Or.inl ⟨s, rfl, rfl⟩

theorem send_email_cases (u p : Option String) (dst s m : String)
    (cc : Option String) (smtp : SmtpOutcome) :
    send_email u p dst s m cc smtp =
      "Email sending failed: Gmail credentials not configured." ∨
    send_email u p dst s m cc smtp = "Email sent successfully to " ++ dst ∨
    send_email u p dst s m cc smtp =
      "Email sending failed: Authentication error. Please check your Gmail credentials." ∨
    (∃ e, smtp = SmtpOutcome.smtpError e ∧
      send_email u p dst s m cc smtp = "Email sending failed: SMTP error - " ++ e) ∨
    (∃ e, smtp = SmtpOutcome.otherError e ∧
      send_email u p dst s m cc smtp =
        "An error occurred while sending email: " ++ e) := by
  by_cases hc : (pyFalsy u || pyFalsy p) = true
  · exact Or.inl (by simp [send_email, hc])
  · cases smtp with
    | success => exact Or.inr (Or.inl (by simp [send_email, hc]))
    | authError => exact Or.inr (Or.inr (Or.inl (by simp [send_email, hc])))
    | smtpError e =>
      exact Or.inr (Or.inr (Or.inr (Or.inl ⟨e, rfl, by simp [send_email, hc]⟩)))
    | otherError e =>
      exact Or.inr (Or.inr (Or.inr (Or.inr ⟨e, rfl, by simp [send_email, hc]⟩)))

theorem manage_notes_cases (action : String) (note : Option String)
    (mem : Option (List String)) :
    (manage_notes action note mem).1 = "Please specify a note to add." ∨
    (manage_notes action note mem).1 = "Please specify a note to remove." ∨
    (manage_notes action note mem).1 =
      "✅ Note added: \x27" ++ note.getD "" ++ "\x27" ∨
    (manage_notes action note mem).1 =
      "🗑️ Note removed: \x27" ++ note.getD "" ++ "\x27" ∨
    (manage_notes action note mem).1 =
      "⚠️ Note not found: \x27" ++ note.getD "" ++ "\x27" ∨
    (manage_notes action note mem).1 = "📝 Your to-do list is empty." ∨
    (∃ ns, mem = some ns ∧ (manage_notes action note mem).1 =
      "📋 Your notes:\n" ++ joinSep "\n" (formatNoteLines 0 ns)) ∨
    (manage_notes action note mem).1 = "🧹 All notes cleared." ∨
    (manage_notes action note mem).1 =
      "⚠️ Invalid action. Use \x27add\x27, \x27remove\x27, \x27list\x27, or \x27clear\x27." ∨
    (∃ e, manage_notes_run action note mem = Except.error e ∧
      (manage_notes action note mem).1 =
        "❌ Error managing notes: " ++ e.toMessage) := by
  by_cases ha : action = "add"
  · by_cases hf : pyFalsy note = true
    · simp [manage_notes, manage_notes_run, ha, hf]
    · simp only [Bool.not_eq_true] at hf
      cases mem with
      | none => simp [manage_notes, manage_notes_run, ha, hf]
      | some ns => simp [manage_notes, manage_notes_run, ha, hf]
  · by_cases hr : action = "remove"
    · by_cases hf : pyFalsy note = true
      · simp [manage_notes, manage_notes_run, ha, hr, hf]
      · simp only [Bool.not_eq_true] at hf
        cases mem with
        | none => simp [manage_notes, manage_notes_run, ha, hr, hf]
        | some ns =>
          by_cases hmem : (note.getD "") ∈ ns
          · simp [manage_notes, manage_notes_run, ha, hr, hf, hmem]
          · simp [manage_notes, manage_notes_run, ha, hr, hf, hmem]
    · by_cases hl : action = "list"
      · cases mem with
        | none => simp [manage_notes, manage_notes_run, ha, hr, hl]
        | some ns =>
          by_cases he : ns.isEmpty = true
          · simp [manage_notes, manage_notes_run, ha, hr, hl, he]
          · simp only [Bool.not_eq_true] at he
            simp [manage_notes, manage_notes_run, ha, hr, hl, he]
      · by_cases hcl : action = "clear"
        · cases mem with
          | none => simp [manage_notes, manage_notes_run, ha, hr, hl, hcl]
          | some ns => simp [manage_notes, manage_notes_run, ha, hr, hl, hcl]
        · simp [manage_notes, manage_notes_run, ha, hr, hl, hcl]

theorem manage_todo_cases (action : String) (task : Option String)
    (l : List TodoItem) :
    (manage_todo action task l).1 = "Please specify a task to add." ∨
    (manage_todo action task l).1 = "Please specify a task to remove." ∨
    (manage_todo action task l).1 = "Please specify a task to mark as completed." ∨
    (manage_todo action task l).1 = "✅ Task added: \x27" ++ task.getD "" ++ "\x27" ∨
    (manage_todo action task l).1 = "🗑️ Task removed: \x27" ++ task.getD "" ++ "\x27" ∨
    (manage_todo action task l).1 = "✅ Task completed: \x27" ++ task.getD "" ++ "\x27" ∨
    (manage_todo action task l).1 = "⚠️ Task not found: \x27" ++ task.getD "" ++ "\x27" ∨
    (manage_todo action task l).1 = "📝 Your to-do list is empty." ∨
    (manage_todo action task l).1 =
      "📋 Your To-Do List:\n" ++ joinSep "\n" (formatTodoLines 0 l) ∨
    (manage_todo action task l).1 = "🧹 All tasks cleared." ∨
    (manage_todo action task l).1 =
      "⚠️ Invalid action. Use \x27add\x27, \x27remove\x27, \x27list\x27, \x27complete\x27, or \x27clear\x27." := by
  by_cases ha : action = "add"
  · by_cases hf : pyFalsy task = true
    · simp [manage_todo, ha, hf]
    · simp only [Bool.not_eq_true] at hf
      simp [manage_todo, ha, hf]
  · by_cases hr : action = "remove"
    · by_cases hf : pyFalsy task = true
      · simp [manage_todo, ha, hr, hf]
      · simp only [Bool.not_eq_true] at hf
        cases hrem : removeTask (task.getD "") l with
        | none => simp [manage_todo, ha, hr, hf, hrem]
        | some l2 => simp [manage_todo, ha, hr, hf, hrem]
    · by_cases hc : action = "complete"
      · by_cases hf : pyFalsy task = true
        · simp [manage_todo, ha, hr, hc, hf]
        · simp only [Bool.not_eq_true] at hf
          cases hcm : completeTask (task.getD "") l with
          | none => simp [manage_todo, ha, hr, hc, hf, hcm]
          | some l2 => simp [manage_todo, ha, hr, hc, hf, hcm]
      · by_cases hl : action = "list"
        · by_cases he : l.isEmpty = true
          · simp [manage_todo, ha, hr, hc, hl, he]
          · simp only [Bool.not_eq_true] at he
            simp [manage_todo, ha, hr, hc, hl, he]
        · by_cases hcl : action = "clear"
          · simp [manage_todo, ha, hr, hc, hl, hcl]
          · simp [manage_todo, ha, hr, hc, hl, hcl]

theorem create_tool_cases (a : CreateArgs) (st : FileState) :
    (∃ e, storeAppend a st = Except.error e ∧
      create_tool a st = ("❌ Failed to create function: " ++ e.toMessage, st)) ∨
    (create_tool a st).1 =
      "✅ Function `" ++ a.function_name ++ "` created and registered successfully." := by
  cases hsa : storeAppend a st with
  | error e => exact Or.inl ⟨e, rfl, by unfold create_tool; rw [hsa]⟩
  | ok st1 => exact Or.inr (by unfold create_tool; rw [hsa])

end Dora

namespace Dora

set_option maxRecDepth 40000

/-- C7: every tool call returns a plain string: in the embedding each
top-level tool is total, and for every input and every outcome of its
external effects the result is one of the tool's success values or one of
its short descriptive failure messages — no modelled exception escapes any
of the six tools. -/
theorem c7_tools_total_messages :
    (∀ (city : String) (resp : Except PyExn HttpResponse),
      (∃ r, resp = Except.ok r ∧ r.status_code = 200 ∧
        get_weather city resp = r.text.trim) ∨
      get_weather city resp = "Could not retrieve weather for " ++ city ++ "." ∨
      get_weather city resp =
        "An error occurred while retrieving weather for " ++ city ++ ".") ∧
    (∀ (q : String) (res : Except PyExn String),
      (∃ s, res = Except.ok s ∧ search_web q res = s) ∨
      search_web q res =
        "An error occurred while searching the web for \x27" ++ q ++ "\x27.") ∧
    (∀ (u p : Option String) (dst s m : String) (cc : Option String)
        (smtp : SmtpOutcome),
      send_email u p dst s m cc smtp =
        "Email sending failed: Gmail credentials not configured." ∨
      send_email u p dst s m cc smtp = "Email sent successfully to " ++ dst ∨
      send_email u p dst s m cc smtp =
        "Email sending failed: Authentication error. Please check your Gmail credentials." ∨
      (∃ e, smtp = SmtpOutcome.smtpError e ∧
        send_email u p dst s m cc smtp =
          "Email sending failed: SMTP error - " ++ e) ∨
      (∃ e, smtp = SmtpOutcome.otherError e ∧
        send_email u p dst s m cc smtp =
          "An error occurred while sending email: " ++ e)) ∧
    (∀ (action : String) (note : Option String) (mem : Option (List String)),
      (manage_notes action note mem).1 = "Please specify a note to add." ∨
      (manage_notes action note mem).1 = "Please specify a note to remove." ∨
      (manage_notes action note mem).1 =
        "✅ Note added: \x27" ++ note.getD "" ++ "\x27" ∨
      (manage_notes action note mem).1 =
        "🗑️ Note removed: \x27" ++ note.getD "" ++ "\x27" ∨
      (manage_notes action note mem).1 =
        "⚠️ Note not found: \x27" ++ note.getD "" ++ "\x27" ∨
      (manage_notes action note mem).1 = "📝 Your to-do list is empty." ∨
      (∃ ns, mem = some ns ∧ (manage_notes action note mem).1 =
        "📋 Your notes:\n" ++ joinSep "\n" (formatNoteLines 0 ns)) ∨
      (manage_notes action note mem).1 = "🧹 All notes cleared." ∨
      (manage_notes action note mem).1 =
        "⚠️ Invalid action. Use \x27add\x27, \x27remove\x27, \x27list\x27, or \x27clear\x27." ∨
      (∃ e, manage_notes_run action note mem = Except.error e ∧
        (manage_notes action note mem).1 =
          "❌ Error managing notes: " ++ e.toMessage)) ∧
    (∀ (action : String) (task : Option String) (l : List TodoItem),
      (manage_todo action task l).1 = "Please specify a task to add." ∨
      (manage_todo action task l).1 = "Please specify a task to remove." ∨
      (manage_todo action task l).1 = "Please specify a task to mark as completed." ∨
      (manage_todo action task l).1 = "✅ Task added: \x27" ++ task.getD "" ++ "\x27" ∨
      (manage_todo action task l).1 = "🗑️ Task removed: \x27" ++ task.getD "" ++ "\x27" ∨
      (manage_todo action task l).1 = "✅ Task completed: \x27" ++ task.getD "" ++ "\x27" ∨
      (manage_todo action task l).1 = "⚠️ Task not found: \x27" ++ task.getD "" ++ "\x27" ∨
      (manage_todo action task l).1 = "📝 Your to-do list is empty." ∨
      (manage_todo action task l).1 =
        "📋 Your To-Do List:\n" ++ joinSep "\n" (formatTodoLines 0 l) ∨
      (manage_todo action task l).1 = "🧹 All tasks cleared." ∨
      (manage_todo action task l).1 =
        "⚠️ Invalid action. Use \x27add\x27, \x27remove\x27, \x27list\x27, \x27complete\x27, or \x27clear\x27.") ∧
    (∀ (a : CreateArgs) (st : FileState),
      (∃ e, storeAppend a st = Except.error e ∧
        create_tool a st = ("❌ Failed to create function: " ++ e.toMessage, st)) ∨
      (create_tool a st).1 =
        "✅ Function `" ++ a.function_name ++ "` created and registered successfully.") :=
  ⟨get_weather_cases, search_web_cases, send_email_cases, manage_notes_cases,
    manage_todo_cases, create_tool_cases⟩

end Dora

namespace Dora

set_option maxRecDepth 40000

theorem removeTask_eq_firstMatch (tk : String) (l : List TodoItem) :
    removeTask tk l =
      (firstMatchIdx (fun t => t.task = tk) l).map (l.eraseIdx ·) := by
  induction l with
  | nil => rfl
  | cons t ts ih =>
    by_cases h : t.task = tk
    · simp [removeTask, firstMatchIdx, h]
    · simp only [removeTask, firstMatchIdx, h, ih]
      cases firstMatchIdx (fun t => t.task = tk) ts <;> simp

theorem completeTask_eq_firstMatch (tk : String) (l : List TodoItem) :
    completeTask tk l =
      (firstMatchIdx (fun t => t.task = tk) l).map
        (fun i => l.modify (fun t => { t with done := true }) i) := by
  induction l with
  | nil => rfl
  | cons t ts ih =>
    by_cases h : t.task = tk
    · simp [completeTask, firstMatchIdx, h, List.modify]
    · simp only [completeTask, firstMatchIdx, h, ih]
      cases firstMatchIdx (fun t => t.task = tk) ts <;> simp [List.modify]

/-- C8: the add/list/complete/list/remove/list lifecycle on `"buy milk"`
behaves as specified, and in general `remove` deletes exactly the first
entry whose task matches while `complete` marks exactly the first matching
entry done, leaving all other entries untouched. -/
theorem c8_todo_lifecycle :
    manage_todo "add" (some "buy milk") [] =
      ("✅ Task added: \x27buy milk\x27", [⟨"buy milk", false⟩]) ∧
    (manage_todo "list" none [⟨"buy milk", false⟩]).1 =
      "📋 Your To-Do List:\n1. [❌] buy milk" ∧
    manage_todo "complete" (some "buy milk") [⟨"buy milk", false⟩] =
      ("✅ Task completed: \x27buy milk\x27", [⟨"buy milk", true⟩]) ∧
    (manage_todo "list" none [⟨"buy milk", true⟩]).1 =
      "📋 Your To-Do List:\n1. [✔️] buy milk" ∧
    manage_todo "remove" (some "buy milk") [⟨"buy milk", true⟩] =
      ("🗑️ Task removed: \x27buy milk\x27", []) ∧
    (manage_todo "list" none ([] : List TodoItem)).1 =
      "📝 Your to-do list is empty." ∧
    (∀ (l : List TodoItem) (tk : String), tk ≠ "" →
      (manage_todo "remove" (some tk) l).2 =
        ((firstMatchIdx (fun t => t.task = tk) l).map (l.eraseIdx ·)).getD l ∧
      (manage_todo "complete" (some tk) l).2 =
        ((firstMatchIdx (fun t => t.task = tk) l).map
          (fun i => l.modify (fun t => { t with done := true }) i)).getD l) := by
  refine ⟨by decide, by decide, by decide, by decide, by decide, by decide, ?_⟩
  intro l tk hne
  have hf : pyFalsy (some tk) = false := by
    simp [pyFalsy, isEmpty_false_of_ne tk hne]
  constructor
  · have hrm := removeTask_eq_firstMatch tk l
    cases hidx : firstMatchIdx (fun t => t.task = tk) l with
    | none => simp [manage_todo, hf, hrm, hidx]
    | some i => simp [manage_todo, hf, hrm, hidx]
  · have hcm := completeTask_eq_firstMatch tk l
    cases hidx : firstMatchIdx (fun t => t.task = tk) l with
    | none => simp [manage_todo, hf, hcm, hidx]
    | some i => simp [manage_todo, hf, hcm, hidx]

/-- C8, first-match clause witnessed on a list with duplicate task text:
only the first duplicate is removed / completed. -/
theorem c8_todo_lifecycle_witness :
    (manage_todo "remove" (some "x")
        [(⟨"x", false⟩ : TodoItem), ⟨"x", false⟩]).2 =
      ((firstMatchIdx (fun t => t.task = "x")
          [(⟨"x", false⟩ : TodoItem), ⟨"x", false⟩]).map
        (([(⟨"x", false⟩ : TodoItem), ⟨"x", false⟩]).eraseIdx ·)).getD
        [(⟨"x", false⟩ : TodoItem), ⟨"x", false⟩] ∧
    (manage_todo "complete" (some "x")
        [(⟨"x", false⟩ : TodoItem), ⟨"x", false⟩]).2 =
      ((firstMatchIdx (fun t => t.task = "x")
          [(⟨"x", false⟩ : TodoItem), ⟨"x", false⟩]).map
        (fun i => ([(⟨"x", false⟩ : TodoItem), ⟨"x", false⟩]).modify
          (fun t => { t with done := true }) i)).getD
        [(⟨"x", false⟩ : TodoItem), ⟨"x", false⟩] :=
  c8_todo_lifecycle.2.2.2.2.2.2 [⟨"x", false⟩, ⟨"x", false⟩] "x" (by decide)

/-- C9: missing credentials short-circuit to the credentials message with
the SMTP session never consulted; with credentials present the three
exception handlers map authentication, SMTP and generic failures to their
messages; and the four failure messages are pairwise distinct whatever the
embedded exception texts are. -/
theorem c9_send_email_distinct_failures :
    (∀ (u p : Option String) (dst s m : String) (cc : Option String)
        (smtp smtp2 : SmtpOutcome),
      (pyFalsy u || pyFalsy p) = true →
      send_email u p dst s m cc smtp =
        "Email sending failed: Gmail credentials not configured." ∧
      send_email u p dst s m cc smtp = send_email u p dst s m cc smtp2) ∧
    (∀ (u p : Option String) (dst s m : String) (cc : Option String),
      (pyFalsy u || pyFalsy p) = false →
      send_email u p dst s m cc SmtpOutcome.authError =
        "Email sending failed: Authentication error. Please check your Gmail credentials." ∧
      (∀ e, send_email u p dst s m cc (SmtpOutcome.smtpError e) =
        "Email sending failed: SMTP error - " ++ e) ∧
      (∀ e, send_email u p dst s m cc (SmtpOutcome.otherError e) =
        "An error occurred while sending email: " ++ e)) ∧
    (∀ e e2 : String,
      ("Email sending failed: Gmail credentials not configured." ≠
        "Email sending failed: Authentication error. Please check your Gmail credentials.") ∧
      ("Email sending failed: Gmail credentials not configured." ≠
        "Email sending failed: SMTP error - " ++ e) ∧
      ("Email sending failed: Gmail credentials not configured." ≠
        "An error occurred while sending email: " ++ e) ∧
      ("Email sending failed: Authentication error. Please check your Gmail credentials." ≠
        "Email sending failed: SMTP error - " ++ e) ∧
      ("Email sending failed: Authentication error. Please check your Gmail credentials." ≠
        "An error occurred while sending email: " ++ e) ∧
      ("Email sending failed: SMTP error - " ++ e ≠
        "An error occurred while sending email: " ++ e2)) := by
  refine ⟨?_, ?_, ?_⟩
  · intro u p dst s m cc smtp smtp2 h
    exact ⟨by simp [send_email, h], by simp [send_email, h]⟩
  · intro u p dst s m cc h
    exact ⟨by simp [send_email, h], fun e => by simp [send_email, h],
      fun e => by simp [send_email, h]⟩
  · intro e e2
    refine ⟨by decide, ?_, ?_, ?_, ?_, ?_⟩
    · apply ne_of_take_data_ne _ _ 23
      rw [append_take_left "Email sending failed: SMTP error - " e 23 (by decide)]
      decide
    · apply ne_of_take_data_ne _ _ 1
      rw [append_take_left "An error occurred while sending email: " e 1 (by decide)]
      decide
    · apply ne_of_take_data_ne _ _ 23
      rw [append_take_left "Email sending failed: SMTP error - " e 23 (by decide)]
      decide
    · apply ne_of_take_data_ne _ _ 1
      rw [append_take_left "An error occurred while sending email: " e 1 (by decide)]
      decide
    · apply ne_of_take_data_ne _ _ 1
      rw [append_take_left "Email sending failed: SMTP error - " e 1 (by decide),
        append_take_left "An error occurred while sending email: " e2 1 (by decide)]
      decide

/-- C9 witnessed at concrete environments and SMTP outcomes. -/
theorem c9_send_email_witness :
    send_email none none "a@b.c" "s" "m" none SmtpOutcome.success =
      "Email sending failed: Gmail credentials not configured." ∧
    send_email none none "a@b.c" "s" "m" none SmtpOutcome.success =
      send_email none none "a@b.c" "s" "m" none SmtpOutcome.authError ∧
    send_email (some "u") (some "pw") "a@b.c" "s" "m" none SmtpOutcome.authError =
      "Email sending failed: Authentication error. Please check your Gmail credentials." ∧
    send_email (some "u") (some "pw") "a@b.c" "s" "m" none
        (SmtpOutcome.smtpError "boom") =
      "Email sending failed: SMTP error - " ++ "boom" ∧
    send_email (some "u") (some "pw") "a@b.c" "s" "m" none
        (SmtpOutcome.otherError "oops") =
      "An error occurred while sending email: " ++ "oops" := by
  have h1 := c9_send_email_distinct_failures.1 none none "a@b.c" "s" "m" none
    SmtpOutcome.success SmtpOutcome.authError (by decide)
  have h2 := c9_send_email_distinct_failures.2.1 (some "u") (some "pw") "a@b.c"
    "s" "m" none (by decide)
  exact ⟨h1.1, h1.2, h2.1, h2.2.1 "boom", h2.2.2 "oops"⟩

/-- C10: every `manage_notes` call that reaches the notes storage — add or
remove with a truthy note, or list or clear — hits the unbound module
global `notes_memory`, and the caught `NameError` becomes the notes error
message; the binding stays undefined, so nothing is ever stored. -/
theorem c10_notes_memory_undefined (act : String) (note : Option String)
    (h : ((act = "add" ∨ act = "remove") ∧ pyFalsy note = false) ∨
      act = "list" ∨ act = "clear") :
    manage_notes act note notes_memory =
      ("❌ Error managing notes: name \x27notes_memory\x27 is not defined",
        notes_memory) := by
  rcases h with ⟨har, hf⟩ | hl | hc
  · rcases har with ha | hr
    · subst ha
      simp [manage_notes, manage_notes_run, notes_memory, hf, PyExn.toMessage]
    · subst hr
      simp [manage_notes, manage_notes_run, notes_memory, hf, PyExn.toMessage]
  · subst hl
    simp [manage_notes, manage_notes_run, notes_memory, PyExn.toMessage]
  · subst hc
    simp [manage_notes, manage_notes_run, notes_memory, PyExn.toMessage]

/-- C10 witnessed on a `list` call. -/
theorem c10_notes_memory_witness :
    manage_notes "list" none notes_memory =
      ("❌ Error managing notes: name \x27notes_memory\x27 is not defined",
        notes_memory) :=
  c10_notes_memory_undefined "list" none (Or.inr (Or.inl rfl))

end Dora
